import Mathlib

/-!
Verification of the HylaFAX Python gateway (src/api/pyfax.py, src/api/rest_api.py)
against its natural-language specification.

The backend binding (libfaxapi, reached through ctypes) is external to the
Python sources: each wrapper method passes its arguments to one C call and
receives a boolean result plus out-parameters.  We embed every wrapper method
as a pure function taking the session state, the method arguments, and the
values the backend call would produce for this invocation (its boolean result
and the contents it writes into the out-buffers).  Each embedded method also
reports whether it invoked the backend, so that "does not attempt any backend
call" claims are statable.
-/

namespace PyFax

/-- Session state of `PyFaxAPI`: the two booleans set in `__init__`
(`self.connected = False`, `self.logged_in = False`). -/
structure SessionState where
  connected : Bool
  logged_in : Bool
deriving DecidableEq, Repr

/-- The fresh state produced by `PyFaxAPI.__init__`. -/
def freshSession : SessionState := ⟨false, false⟩

/-- Outcome of a wrapper method that returns `(success, message)` and may
update the session state.  `backendCalled` records whether the ctypes
binding was invoked during the call. -/
structure CallOutcome where
  state : SessionState
  success : Bool
  message : String
  backendCalled : Bool
deriving DecidableEq, Repr

/-- `PyFaxAPI.connect` (pyfax.py lines 180-190): calls `fax_api_connect`
unconditionally, sets `self.connected = success`, returns
`(success, error_msg)`.  `res`/`err` are the boolean result and error text
the backend produces for this call. -/
def connect (s : SessionState) (res : Bool) (err : String) : CallOutcome :=
  { state := { connected := res, logged_in := s.logged_in }
  , success := res
  , message := err
  , backendCalled := true }

/-- `PyFaxAPI.login` (pyfax.py lines 201-218): calls `fax_api_login`
unconditionally (no check of `self.connected`), sets
`self.logged_in = success`, returns `(success, error_msg)`.
The username is encoded (or NULL when empty) and passed through; it does not
influence the wrapper's own state transition. -/
def login (s : SessionState) (username : Option String) (res : Bool)
    (err : String) : CallOutcome :=
  { state := { connected := s.connected, logged_in := res }
  , success := res
  , message := err
  , backendCalled := true }

/-- `PyFaxAPI.disconnect` (pyfax.py lines 192-199): when `self.connected`,
calls `fax_api_disconnect`, clears both flags and returns the backend's
result; otherwise returns `True` without touching the backend or the
state. -/
def disconnect (s : SessionState) (res : Bool) : CallOutcome :=
  if s.connected then
    { state := ⟨false, false⟩, success := res, message := "", backendCalled := true }
  else
    { state := s, success := true, message := "", backendCalled := false }

/-- `PyFaxAPI.kill_job` (pyfax.py lines 330-338): calls `fax_api_kill_job`
unconditionally, with no session-state check, and returns
`(success, error_msg)`.  The session state is an argument only to record
that the behaviour does not depend on it. -/
def kill_job (_s : SessionState) (_job_id : String) (res : Bool)
    (err : String) : Bool × String × Bool :=
  (res, err, true)

/-- `PyFaxAPI.suspend_job` (pyfax.py lines 340-348): same shape as
`kill_job`, bound to `fax_api_suspend_job`. -/
def suspend_job (_s : SessionState) (_job_id : String) (res : Bool)
    (err : String) : Bool × String × Bool :=
  (res, err, true)

/-- `PyFaxAPI.resume_job` (pyfax.py lines 350-358): same shape as
`kill_job`, bound to `fax_api_resume_job`. -/
def resume_job (_s : SessionState) (_job_id : String) (res : Bool)
    (err : String) : Bool × String × Bool :=
  (res, err, true)

/-- `PyFaxAPI.wait_for_job` (pyfax.py lines 360-368): same shape as
`kill_job`, bound to `fax_api_wait_for_job`. -/
def wait_for_job (_s : SessionState) (_job_id : String) (res : Bool)
    (err : String) : Bool × String × Bool :=
  (res, err, true)

/-- One step of a connect/login/disconnect sequence.  Each constructor
carries the boolean result the backend call would return at that step
(disconnect's backend result does not affect the state, and the error
texts never do). -/
inductive SessionOp where
  | opConnect (res : Bool)
  | opLogin (res : Bool)
  | opDisconnect (res : Bool)
deriving DecidableEq, Repr

/-- State transition of a single `SessionOp`, read off the wrapper methods. -/
def stepOp (s : SessionState) : SessionOp → SessionState
  | .opConnect res => (connect s res "").state
  | .opLogin res => (login s none res "").state
  | .opDisconnect res => (disconnect s res).state

/-- Running a sequence of operations from a state. -/
def runOps (s : SessionState) : List SessionOp → SessionState
  | [] => s
  | op :: rest => runOps (stepOp s op) rest

/-- `authenticated ⇒ connected`: the session invariant claimed by the spec. -/
def sessionInv (s : SessionState) : Prop := s.logged_in = true → s.connected = true

instance (s : SessionState) : Decidable (sessionInv s) := by
  unfold sessionInv; infer_instance

/-- A trace is ordering-disciplined when it follows the spec's
`Unconnected → Connected → Authenticated` state machine: every `login`
step is taken while the session is connected, and every `connect` step is
taken from a state that is not yet authenticated. -/
def orderedTrace : SessionState → List SessionOp → Bool
  | _, [] => true
  | s, op :: rest =>
      (match op with
       | .opLogin _ => s.connected
       | .opConnect _ => !s.logged_in
       | .opDisconnect _ => true) && orderedTrace (stepOp s op) rest

/-- A Python value that can appear in the `options` dictionary passed to
`send_fax`.  Floats are carried as an integer code: no arithmetic is ever
performed on an option value, it is only stored into the C structure. -/
inductive CValue where
  | vstr (s : String)
  | vint (n : Int)
  | vfloat (q : Int)
  | vbool (b : Bool)
deriving DecidableEq, Repr

/-- The content of a `c_char_p` structure field: the `NULL` pointer, a
pointer to the bytes of a string, or a raw integer address — ctypes
accepts a Python `int` (and hence `bool`) for a pointer field and stores
it as an address. -/
inductive CCharP where
  | cnull
  | cbytes (s : String)
  | craw (n : Int)
deriving DecidableEq, Repr

/-- The `FaxSendOptions` ctypes structure (pyfax.py lines 23-55).
`c_char_p` fields default to `NULL` (`.cnull`), numeric fields to `0`,
`c_bool` fields to `false` — the zero-initialisation `FaxSendOptions()`
performs. -/
structure FaxSendOptions where
  recipient : CCharP := .cnull
  dialString : CCharP := .cnull
  subAddress : CCharP := .cnull
  coverComments : CCharP := .cnull
  coverRegarding : CCharP := .cnull
  coverFromVoice : CCharP := .cnull
  coverFromFax : CCharP := .cnull
  coverFromCompany : CCharP := .cnull
  coverFromLocation : CCharP := .cnull
  coverTemplate : CCharP := .cnull
  tagLineFormat : CCharP := .cnull
  jobTag : CCharP := .cnull
  tsi : CCharP := .cnull
  sendTime : CCharP := .cnull
  killTime : CCharP := .cnull
  retryTime : CCharP := .cnull
  pageSize : CCharP := .cnull
  notification : CCharP := .cnull
  priority : CCharP := .cnull
  vResolution : Int := 0
  maxRetries : Int := 0
  maxDials : Int := 0
  autoCoverPage : Bool := false
  useECM : Bool := false
  useXVRes : Bool := false
  archive : Bool := false
  desiredSpeed : Int := 0
  minSpeed : Int := 0
  desiredDataFormat : Int := 0
deriving DecidableEq, Repr

/-- The all-defaults record `FaxSendOptions()`. -/
def defaultOptions : FaxSendOptions := {}

/-- ctypes assignment to a `c_char_p` field: the wrapper encodes `str`
values to bytes, which are stored as a pointer; an `int` or `bool` is
accepted and stored as a raw address; a `float` raises `TypeError`
(`none`).  (Checked against CPython: `z_set` takes bytes, `None` or an
integer address.) -/
def coerceStr : CValue → Option CCharP
  | .vstr s => some (.cbytes s)
  | .vint n => some (.craw n)
  | .vbool b => some (.craw (if b then 1 else 0))
  | .vfloat _ => none

/-- ctypes assignment to a `c_int` field: accepts `int` and `bool`
(a subtype of `int` in Python); `str` and `float` raise (`none`). -/
def coerceInt : CValue → Option Int
  | .vint n => some n
  | .vbool b => some (if b then 1 else 0)
  | _ => none

/-- ctypes assignment to a `c_float` field: accepts `float`, `int` and
`bool`; a `str` value is encoded to bytes first and raises (`none`). -/
def coerceFloat : CValue → Option Int
  | .vfloat q => some q
  | .vint n => some n
  | .vbool b => some (if b then 1 else 0)
  | _ => none

/-- ctypes assignment to a `c_bool` field stores the Python truthiness of
the value, never raising. -/
def coerceBool : CValue → Bool
  | .vstr s => s != ""
  | .vint n => n != 0
  | .vfloat q => q != 0
  | .vbool b => b

/-- The 29 field names declared in `FaxSendOptions._fields_`.  These are
only part of what `hasattr(c_options, key)` accepts: a ctypes `Structure`
instance also exposes non-field attributes (see `raisingAttrs` and
`inertAttrs`). -/
def fieldNames : List String :=
  ["recipient", "dialString", "subAddress", "coverComments", "coverRegarding",
   "coverFromVoice", "coverFromFax", "coverFromCompany", "coverFromLocation",
   "coverTemplate", "tagLineFormat", "jobTag", "tsi", "sendTime", "killTime",
   "retryTime", "pageSize", "notification", "priority", "vResolution",
   "maxRetries", "maxDials", "autoCoverPage", "useECM", "useXVRes",
   "archive", "desiredSpeed", "minSpeed", "desiredDataFormat"]

/-- Non-field attribute names of a `FaxSendOptions` instance for which
`hasattr` is true but `setattr` raises for every value an options mapping
can carry: the guarded descriptors (assigning a non-class to
`__class__` or a non-dict to `__dict__` raises `TypeError`) and the
read-only descriptors (`__weakref__` and the ctypes internals raise
`AttributeError`).  Classified by exercising CPython on the structure. -/
def raisingAttrs : List String :=
  ["__class__", "__dict__", "__weakref__", "_b_base_", "_b_needsfree_",
   "_objects"]

/-- The remaining non-field attribute names of a `FaxSendOptions`
instance: plain class attributes and inherited methods.  `hasattr` is
true and `setattr` succeeds, but it only creates an instance-dictionary
attribute shadowing the class one — the C structure passed to the backend
is unchanged, exactly as if the entry had been skipped. -/
def inertAttrs : List String :=
  ["_fields_", "__ctypes_from_outparam__", "__delattr__", "__dir__",
   "__doc__", "__eq__", "__format__", "__ge__", "__getattribute__",
   "__getstate__", "__gt__", "__hash__", "__init__", "__init_subclass__",
   "__le__", "__lt__", "__module__", "__ne__", "__new__", "__reduce__",
   "__reduce_ex__", "__repr__", "__setattr__", "__setstate__",
   "__sizeof__", "__str__", "__subclasshook__"]

/-- `hasattr(c_options, key)`: true for the 29 declared fields and for
every non-field attribute of the instance. -/
def hasattrOptions (key : String) : Bool :=
  fieldNames.contains key || raisingAttrs.contains key ||
    inertAttrs.contains key

/-- The keys on which the options loop acts on the C structure or raises:
the declared field names together with the raising non-field attributes.
For every other key — those `hasattr` does not find, and the inert
non-field attributes — the loop leaves the structure unchanged without
error. -/
def isAttrName (key : String) : Bool :=
  fieldNames.contains key || raisingAttrs.contains key

/-- One iteration of the options loop in `send_fax` (pyfax.py lines
241-247): `if hasattr(c_options, key): setattr(...)` with the
string-encoding branch; keys failing the `hasattr` gate are skipped.
`none` models an exception raised by the `setattr`: a ctypes field
assignment of the wrong type, or an assignment to a guarded or read-only
non-field attribute.  A `setattr` to an inert non-field attribute
succeeds but leaves the C structure unchanged. -/
def setOption (o : FaxSendOptions) (key : String) (v : CValue) :
    Option FaxSendOptions :=
  match key with
  | "recipient" => (coerceStr v).map fun x => { o with recipient := x }
  | "dialString" => (coerceStr v).map fun x => { o with dialString := x }
  | "subAddress" => (coerceStr v).map fun x => { o with subAddress := x }
  | "coverComments" => (coerceStr v).map fun x => { o with coverComments := x }
  | "coverRegarding" => (coerceStr v).map fun x => { o with coverRegarding := x }
  | "coverFromVoice" => (coerceStr v).map fun x => { o with coverFromVoice := x }
  | "coverFromFax" => (coerceStr v).map fun x => { o with coverFromFax := x }
  | "coverFromCompany" => (coerceStr v).map fun x => { o with coverFromCompany := x }
  | "coverFromLocation" => (coerceStr v).map fun x => { o with coverFromLocation := x }
  | "coverTemplate" => (coerceStr v).map fun x => { o with coverTemplate := x }
  | "tagLineFormat" => (coerceStr v).map fun x => { o with tagLineFormat := x }
  | "jobTag" => (coerceStr v).map fun x => { o with jobTag := x }
  | "tsi" => (coerceStr v).map fun x => { o with tsi := x }
  | "sendTime" => (coerceStr v).map fun x => { o with sendTime := x }
  | "killTime" => (coerceStr v).map fun x => { o with killTime := x }
  | "retryTime" => (coerceStr v).map fun x => { o with retryTime := x }
  | "pageSize" => (coerceStr v).map fun x => { o with pageSize := x }
  | "notification" => (coerceStr v).map fun x => { o with notification := x }
  | "priority" => (coerceStr v).map fun x => { o with priority := x }
  | "vResolution" => (coerceFloat v).map fun x => { o with vResolution := x }
  | "maxRetries" => (coerceInt v).map fun x => { o with maxRetries := x }
  | "maxDials" => (coerceInt v).map fun x => { o with maxDials := x }
  | "autoCoverPage" => some { o with autoCoverPage := coerceBool v }
  | "useECM" => some { o with useECM := coerceBool v }
  | "useXVRes" => some { o with useXVRes := coerceBool v }
  | "archive" => some { o with archive := coerceBool v }
  | "desiredSpeed" => (coerceInt v).map fun x => { o with desiredSpeed := x }
  | "minSpeed" => (coerceInt v).map fun x => { o with minSpeed := x }
  | "desiredDataFormat" => (coerceInt v).map fun x => { o with desiredDataFormat := x }
  | _ =>
      if hasattrOptions key then
        if raisingAttrs.contains key then none else some o
      else
        some o

/-- The options-marshalling loop of `send_fax` (pyfax.py lines 239-247):
starts from the zero-initialised `FaxSendOptions()` and folds the entries
of the `options` mapping through `setOption` (a `None` or empty mapping
skips the loop, i.e. is the empty list).  `none` models a raised
exception. -/
def marshalOptions (opts : List (String × CValue)) : Option FaxSendOptions :=
  opts.foldlM (fun o kv => setOption o kv.1 kv.2) defaultOptions

/-- The `FaxSubmissionResult` ctypes structure (pyfax.py lines 58-66) as
filled in by the backend call; `c_char_p` fields may be `NULL`. -/
structure FaxSubmissionResult where
  success : Bool
  jobId : Option String
  groupId : Option String
  errorMessage : Option String
  totalPages : Int
deriving DecidableEq, Repr

/-- A Python value stored in a result dictionary. -/
inductive PyVal where
  | pbool (b : Bool)
  | pstr (s : String)
  | pint (n : Int)
deriving DecidableEq, Repr

/-- Which of the two return paths of `send_fax` produced the result:
the early not-connected/not-logged-in dictionary, or the dictionary built
from the backend's `FaxSubmissionResult`. -/
inductive SendOutcome where
  | notLoggedIn
  | completed (callOk : Bool) (r : FaxSubmissionResult)
deriving DecidableEq, Repr

/-- The literal Python dictionary `send_fax` returns on each path
(pyfax.py lines 234-237 and 273-279), as an ordered key/value list. -/
def sendDict : SendOutcome → List (String × PyVal)
  | .notLoggedIn =>
      [("success", .pbool false), ("error", .pstr "Not connected or logged in")]
  | .completed callOk r =>
      [("success", .pbool (callOk && r.success)),
       ("job_id", .pstr (r.jobId.getD "")),
       ("group_id", .pstr (r.groupId.getD "")),
       ("total_pages", .pint r.totalPages),
       ("error", .pstr (r.errorMessage.getD ""))]

/-- Result of one `send_fax` call, together with whether the
`fax_api_send_fax` binding was invoked. -/
structure SendFaxOutcome where
  outcome : SendOutcome
  backendCalled : Bool
deriving DecidableEq, Repr

/-- Look a key up in a result dictionary. -/
def dictGet (d : List (String × PyVal)) (k : String) : Option PyVal :=
  (d.find? (fun kv => kv.1 == k)).map (fun kv => kv.2)

/-- `PyFaxAPI.send_fax` (pyfax.py lines 220-279).  `callOk` is the boolean
the `fax_api_send_fax` binding would return and `result` the
`FaxSubmissionResult` it would write; `none` models an exception raised
while marshalling the options (the only fallible step before the call). -/
def send_fax (s : SessionState) (files destinations : List String)
    (options : List (String × CValue)) (callOk : Bool)
    (result : FaxSubmissionResult) : Option SendFaxOutcome :=
  if !(s.connected && s.logged_in) then
    some { outcome := .notLoggedIn, backendCalled := false }
  else
    match marshalOptions options with
    | none => none
    | some _ =>
        let _ := files
        let _ := destinations
        some { outcome := .completed callOk result, backendCalled := true }

/-- The `QueueType` enumeration (pyfax.py lines 14-20). -/
inductive QueueType where
  | SEND_QUEUE
  | DONE_QUEUE
  | RECV_QUEUE
  | ARCHIVE_QUEUE
  | DOCUMENT_QUEUE
  | SERVER_STATUS
deriving DecidableEq, Repr

/-- The integer value of each `QueueType` member, passed to the backend. -/
def QueueType.val : QueueType → Int
  | .SEND_QUEUE => 0
  | .DONE_QUEUE => 1
  | .RECV_QUEUE => 2
  | .ARCHIVE_QUEUE => 3
  | .DOCUMENT_QUEUE => 4
  | .SERVER_STATUS => 5

/-- The `FaxJobInfo` ctypes structure (pyfax.py lines 69-84); every field
is a possibly-`NULL` `c_char_p`. -/
structure FaxJobInfo where
  jobId : Option String := none
  state : Option String := none
  pages : Option String := none
  dials : Option String := none
  tts : Option String := none
  sender : Option String := none
  number : Option String := none
  modem : Option String := none
  tag : Option String := none
  status : Option String := none
  fileName : Option String := none
  received : Option String := none
deriving DecidableEq, Repr

/-- The normalized job dictionary built by `get_job_status` (pyfax.py
lines 313-326): every field decoded, with `""` for `NULL`. -/
structure JobRecord where
  job_id : String
  state : String
  pages : String
  dials : String
  tts : String
  sender : String
  number : String
  modem : String
  tag : String
  status : String
  file_name : String
  received : String
deriving DecidableEq, Repr

/-- The per-job conversion loop body of `get_job_status`. -/
def toJobRecord (j : FaxJobInfo) : JobRecord :=
  { job_id := j.jobId.getD "", state := j.state.getD "",
    pages := j.pages.getD "", dials := j.dials.getD "",
    tts := j.tts.getD "", sender := j.sender.getD "",
    number := j.number.getD "", modem := j.modem.getD "",
    tag := j.tag.getD "", status := j.status.getD "",
    file_name := j.fileName.getD "", received := j.received.getD "" }

/-- The buffer size allocated by `get_job_status` (`max_jobs = 1000`). -/
def maxJobs : Nat := 1000

/-- `PyFaxAPI.get_job_status` (pyfax.py lines 281-328).  `backendOk` is
the boolean `fax_api_get_job_status` would return and `backendJobs` the
jobs it would report (their number is what it writes into `jobs_count`).
Returns `none` when the Python loop would raise `IndexError` by indexing
the 1000-slot ctypes array past its end. -/
def get_job_status (s : SessionState) (qt : QueueType) (backendOk : Bool)
    (backendJobs : List FaxJobInfo) : Option (List JobRecord) :=
  if !(s.connected && s.logged_in) then some []
  else
    let _ := qt.val
    if !backendOk then some []
    else if backendJobs.length > maxJobs then none
    else some (backendJobs.map toJobRecord)

end PyFax

namespace RestApi

open PyFax

/-- The characters after the last `'.'` of a character list, or `none`
when no dot occurs: `filename.rsplit('.', 1)[1]` guarded by
`'.' in filename`. -/
def afterLastDot : List Char → Option (List Char)
  | [] => none
  | c :: rest =>
      match afterLastDot rest with
      | some e => some e
      | none => if c = '.' then some rest else none

/-- `allowed_file` (rest_api.py lines 32-35): the filename contains a dot
and the part after the last dot, lowercased, is an allowed extension. -/
def allowed_file (filename : String) : Bool :=
  match afterLastDot filename.toList with
  | none => false
  | some ext =>
      ["pdf", "ps", "txt", "tiff", "tif"].contains
        (String.mk (ext.map Char.toLower))

/-- The `/api/fax/send` request after transport parsing: whether the
`files` form field is present, the uploaded filenames, and the results of
JSON-decoding `destinations` and `options` (`none` = `JSONDecodeError`). -/
structure RestRequest where
  hasFilesField : Bool
  files : List String
  destinations : Option (List String)
  options : Option (List (String × CValue))
deriving Repr

/-- The backend behaviour a single `/api/fax/send` request would observe:
results of the connect, login and submission calls performed by the fresh
per-request `PyFaxAPI` session. -/
structure RestBackend where
  connectRes : Bool
  connectErr : String
  loginRes : Bool
  loginErr : String
  sendCallOk : Bool
  sendResult : FaxSubmissionResult
deriving Repr

/-- The `(success, message, status_code)` of `create_api_response`. -/
structure RestResponse where
  success : Bool
  message : String
  status : Nat
deriving DecidableEq, Repr

/-- The observable effects of one `/api/fax/send` request: which backend
calls were made, which staged upload paths were created, and which were
deleted again before the handler returned. -/
structure RestEffects where
  connectCalled : Bool
  loginCalled : Bool
  sendCalled : Bool
  stagedFiles : List String
  deletedFiles : List String
deriving DecidableEq, Repr

/-- No backend interaction, no staging. -/
def noEffects : RestEffects :=
  { connectCalled := false, loginCalled := false, sendCalled := false,
    stagedFiles := [], deletedFiles := [] }

/-- The `send_fax` route handler (rest_api.py lines 65-148).  Staged paths
are identified by their original filenames (the uuid prefix added on disk
plays no role in the control flow).  The final `except Exception` branch
(status 500) is reached exactly when the inner `PyFaxAPI.send_fax` raises,
i.e. when options marshalling raises. -/
def sendFaxRoute (req : RestRequest) (b : RestBackend) :
    RestResponse × RestEffects :=
  if !req.hasFilesField then
    (⟨false, "No files provided", 400⟩, noEffects)
  else if req.files.isEmpty || req.files.all (fun f => f == "") then
    (⟨false, "No files selected", 400⟩, noEffects)
  else
    match req.destinations with
    | none => (⟨false, "Invalid destinations format", 400⟩, noEffects)
    | some dests =>
      if dests.isEmpty then
        (⟨false, "No destinations specified", 400⟩, noEffects)
      else
        match req.options with
        | none => (⟨false, "Invalid options format", 400⟩, noEffects)
        | some opts =>
          let uploaded := req.files.filter (fun f => f != "" && allowed_file f)
          if uploaded.isEmpty then
            (⟨false, "No valid files uploaded", 400⟩, noEffects)
          else
            let c := PyFax.connect freshSession b.connectRes b.connectErr
            if !c.success then
              (⟨false, "Connection failed: " ++ b.connectErr, 503⟩,
               { connectCalled := true, loginCalled := false, sendCalled := false,
                 stagedFiles := uploaded, deletedFiles := [] })
            else
              let l := PyFax.login c.state none b.loginRes b.loginErr
              if !l.success then
                (⟨false, "Login failed: " ++ b.loginErr, 503⟩,
                 { connectCalled := true, loginCalled := true, sendCalled := false,
                   stagedFiles := uploaded, deletedFiles := [] })
              else
                match PyFax.send_fax l.state uploaded dests opts
                    b.sendCallOk b.sendResult with
                | none =>
                    (⟨false, "internal error", 500⟩,
                     { connectCalled := true, loginCalled := true,
                       sendCalled := false,
                       stagedFiles := uploaded, deletedFiles := [] })
                | some out =>
                    let eff : RestEffects :=
                      { connectCalled := true, loginCalled := true,
                        sendCalled := out.backendCalled,
                        stagedFiles := uploaded, deletedFiles := uploaded }
                    match out.outcome with
                    | .notLoggedIn =>
                        (⟨false, "Not connected or logged in", 400⟩, eff)
                    | .completed callOk r =>
                        if callOk && r.success then
                          (⟨true, "Fax submitted successfully", 200⟩, eff)
                        else
                          (⟨false, r.errorMessage.getD "", 400⟩, eff)

end RestApi

namespace FaxBackend

open PyFax

/-- The backend-chosen parts of a submission outcome that the spec leaves
free: whether the C call and the submission succeed, the job identifier,
the raw material of the group identifier, the page count and the error
text. -/
structure SendOracle where
  callOk : Bool
  success : Bool
  jobId : Option String
  groupTag : String
  totalPages : Int
  errorMessage : Option String
deriving Repr

/-- Modelled from the spec: the `fax_api_send_fax` binding of libfaxapi,
whose implementation is not under src/ (pyfax.py only declares its ctypes
signature).  Per the spec's Submission Protocol, one destination produces
a single job with `groupId` empty, while multiple destinations produce a
fan-out group sharing a non-empty `groupId` whenever the submission
succeeds; every other component of the result is backend-chosen. -/
def sendFaxModel (destinations : List String) (o : SendOracle) :
    FaxSubmissionResult :=
  { success := o.success
  , jobId := o.jobId
  , groupId :=
      if destinations.length ≤ 1 then none
      else if o.success then some ("G" ++ o.groupTag) else none
  , errorMessage := o.errorMessage
  , totalPages := o.totalPages }

end FaxBackend

/-! ## Claim C1 -/

/-- C1 counterexample: on a fresh (unconnected) session, `login` still
invokes the backend binding and, when the backend grants it, succeeds; no
ordering error is produced and the backend call is attempted. -/
theorem C1_counterexample :
    (PyFax.login PyFax.freshSession none true "").backendCalled = true ∧
    (PyFax.login PyFax.freshSession none true "").success = true ∧
    PyFax.freshSession.connected = false := by
  exact ⟨rfl, rfl, rfl⟩

/-- C1 (amended): `login` performs no connected-state check at all: from
every session state it invokes the backend login binding, returns the
backend's result and message, sets `logged_in` to that result and leaves
`connected` unchanged. -/
theorem C1_login_always_calls_backend (s : PyFax.SessionState)
    (username : Option String) (res : Bool) (err : String) :
    PyFax.login s username res err =
      { state := ⟨s.connected, res⟩, success := res, message := err,
        backendCalled := true } := rfl

/-! ## Claim C2 -/

/-- C2 counterexample: from a fresh session, a single `login` granted by
the backend leaves the session authenticated but not connected, violating
`authenticated ⇒ connected`. -/
theorem C2_counterexample :
    (PyFax.runOps PyFax.freshSession [PyFax.SessionOp.opLogin true]).logged_in = true ∧
    (PyFax.runOps PyFax.freshSession [PyFax.SessionOp.opLogin true]).connected = false := by
  exact ⟨rfl, rfl⟩

/-- C2 (amended): the invariant `authenticated ⇒ connected` is preserved
by every connect/login/disconnect sequence that follows the spec's
ordering discipline (`login` only while connected, `connect` only while
not authenticated); the wrapper itself does not enforce the discipline. -/
theorem C2_invariant_under_ordering (s : PyFax.SessionState)
    (ops : List PyFax.SessionOp) (hinv : PyFax.sessionInv s)
    (hord : PyFax.orderedTrace s ops = true) :
    PyFax.sessionInv (PyFax.runOps s ops) := by
  induction ops generalizing s with
  | nil => exact hinv
  | cons op rest ih =>
    simp only [PyFax.orderedTrace, Bool.and_eq_true] at hord
    rcases hord with ⟨hop, hrest⟩
    refine ih (PyFax.stepOp s op) ?_ hrest
    clear ih hrest
    rcases s with ⟨c, l⟩
    cases op with
    | opConnect res => revert hinv hop; revert c l res; decide
    | opLogin res => revert hinv hop; revert c l res; decide
    | opDisconnect res => revert hinv hop; revert c l res; decide

/-- C2 witness: a concrete ordered trace (connect, login, disconnect)
from the fresh session preserves the invariant. -/
theorem C2_witness :
    PyFax.sessionInv PyFax.freshSession ∧
    PyFax.orderedTrace PyFax.freshSession
      [PyFax.SessionOp.opConnect true, PyFax.SessionOp.opLogin true,
       PyFax.SessionOp.opDisconnect true] = true ∧
    PyFax.sessionInv (PyFax.runOps PyFax.freshSession
      [PyFax.SessionOp.opConnect true, PyFax.SessionOp.opLogin true,
       PyFax.SessionOp.opDisconnect true]) := by
  refine ⟨by decide, by decide, ?_⟩
  exact C2_invariant_under_ordering PyFax.freshSession _ (by decide) (by decide)

/-! ## Claim C3 -/

/-- C3 counterexample: `wait_for_job` invoked on a fresh,
never-authenticated session attempts the backend call (third component
`true`) and returns whatever the backend answers — here success with no
message — instead of failing immediately with an ordering/auth error. -/
theorem C3_counterexample :
    PyFax.wait_for_job PyFax.freshSession "42" true "" = (true, "", true) ∧
    PyFax.freshSession.logged_in = false := ⟨rfl, rfl⟩

/-- C3 (amended): none of the four job-control operations checks the
session state: from every session state, authenticated or not, each one
invokes its backend binding and returns the backend's
`(success, message)` unchanged. -/
theorem C3_job_control_no_auth_check (s : PyFax.SessionState)
    (job_id : String) (res : Bool) (err : String) :
    PyFax.wait_for_job s job_id res err = (res, err, true) ∧
    PyFax.kill_job s job_id res err = (res, err, true) ∧
    PyFax.suspend_job s job_id res err = (res, err, true) ∧
    PyFax.resume_job s job_id res err = (res, err, true) :=
  ⟨rfl, rfl, rfl, rfl⟩

/-! ## Claim C4 -/

/-- C4 counterexample: from the reachable state `connected = false,
logged_in = true` (produced by a backend-granted `login` on an unconnected
session), `disconnect` returns success but leaves `authenticated` true;
and from a connected state whose backend disconnect reports failure, the
first call does not return success. -/
theorem C4_counterexample :
    ((PyFax.disconnect ⟨false, true⟩ true).success = true ∧
     (PyFax.disconnect ⟨false, true⟩ true).state.logged_in = true) ∧
    (PyFax.disconnect ⟨true, true⟩ false).success = false := by
  exact ⟨⟨rfl, rfl⟩, rfl⟩

/-- C4 (amended): provided the session satisfies `authenticated ⇒
connected` and the backend's disconnect reports success, calling
`disconnect` twice in a row returns success both times, leaves both flags
false after either call, and the second call never touches the backend. -/
theorem C4_disconnect_idempotent (s : PyFax.SessionState) (res2 : Bool)
    (hinv : PyFax.sessionInv s) :
    (PyFax.disconnect s true).success = true ∧
    (PyFax.disconnect s true).state.connected = false ∧
    (PyFax.disconnect s true).state.logged_in = false ∧
    (PyFax.disconnect (PyFax.disconnect s true).state res2).success = true ∧
    (PyFax.disconnect (PyFax.disconnect s true).state res2).state.connected = false ∧
    (PyFax.disconnect (PyFax.disconnect s true).state res2).state.logged_in = false ∧
    (PyFax.disconnect (PyFax.disconnect s true).state res2).backendCalled = false := by
  rcases s with ⟨c, l⟩
  revert hinv; revert c l res2; decide

/-- C4 witness: the amended property at the concrete authenticated state
`connected = true, logged_in = true` with a succeeding backend. -/
theorem C4_witness :
    PyFax.sessionInv ⟨true, true⟩ ∧
    ((PyFax.disconnect ⟨true, true⟩ true).success = true ∧
     (PyFax.disconnect ⟨true, true⟩ true).state.connected = false ∧
     (PyFax.disconnect ⟨true, true⟩ true).state.logged_in = false ∧
     (PyFax.disconnect (PyFax.disconnect ⟨true, true⟩ true).state true).success = true ∧
     (PyFax.disconnect (PyFax.disconnect ⟨true, true⟩ true).state true).state.connected = false ∧
     (PyFax.disconnect (PyFax.disconnect ⟨true, true⟩ true).state true).state.logged_in = false ∧
     (PyFax.disconnect (PyFax.disconnect ⟨true, true⟩ true).state true).backendCalled = false) :=
  ⟨by decide, C4_disconnect_idempotent ⟨true, true⟩ true (by decide)⟩

/-! ## Claim C5 -/

/-- C5 counterexample: in the protocol core, a connected and logged-in
session passes an empty destinations list straight to the backend —
`send_fax` attempts the backend call instead of rejecting the
submission. -/
theorem C5_counterexample :
    (PyFax.send_fax ⟨true, true⟩ ["a.pdf"] [] [] true
        ⟨false, none, none, none, 0⟩).map (fun o => o.backendCalled) =
      some true := by decide

/-- C5 (amended): the rejection of empty destinations happens in the
transport adapter, before any backend interaction: every `/api/fax/send`
request whose destinations decode to the empty list is answered with
status 400 while no backend call is made and no file is staged.  The
protocol core itself performs no such check (see the counterexample). -/
theorem C5_rest_rejects_empty_destinations (req : RestApi.RestRequest)
    (b : RestApi.RestBackend) (h : req.destinations = some []) :
    (RestApi.sendFaxRoute req b).1.status = 400 ∧
    (RestApi.sendFaxRoute req b).2.connectCalled = false ∧
    (RestApi.sendFaxRoute req b).2.sendCalled = false ∧
    (RestApi.sendFaxRoute req b).2.stagedFiles = [] := by
  rcases req with ⟨hf, files, dests, opts⟩
  simp only at h
  subst h
  unfold RestApi.sendFaxRoute
  cases hf <;>
    by_cases hfe : files.isEmpty || files.all (fun f => f == "") <;>
      simp [hfe, RestApi.noEffects]

/-- C5 witness: a concrete request with an empty destinations array is
answered 400 with no backend call and nothing staged. -/
theorem C5_witness :
    (⟨true, ["a.pdf"], some [], some []⟩ : RestApi.RestRequest).destinations =
      some [] ∧
    ((RestApi.sendFaxRoute ⟨true, ["a.pdf"], some [], some []⟩
        ⟨true, "", true, "", true, ⟨true, some "1", none, none, 1⟩⟩).1.status = 400 ∧
     (RestApi.sendFaxRoute ⟨true, ["a.pdf"], some [], some []⟩
        ⟨true, "", true, "", true, ⟨true, some "1", none, none, 1⟩⟩).2.connectCalled = false ∧
     (RestApi.sendFaxRoute ⟨true, ["a.pdf"], some [], some []⟩
        ⟨true, "", true, "", true, ⟨true, some "1", none, none, 1⟩⟩).2.sendCalled = false ∧
     (RestApi.sendFaxRoute ⟨true, ["a.pdf"], some [], some []⟩
        ⟨true, "", true, "", true, ⟨true, some "1", none, none, 1⟩⟩).2.stagedFiles = []) :=
  ⟨rfl, C5_rest_rejects_empty_destinations _ _ rfl⟩

/-! ## Claim C6 -/

/-- C6 counterexample: an `/api/fax/send` request whose connect to the
backend fails stages the uploaded document but the handler returns (status
503) without deleting it — the staged file is not released on the
connect-failure outcome. -/
theorem C6_counterexample :
    (RestApi.sendFaxRoute ⟨true, ["a.pdf"], some ["5551234"], some []⟩
        ⟨false, "unreachable", true, "", true,
         ⟨true, some "1", none, none, 1⟩⟩).2.stagedFiles = ["a.pdf"] ∧
    (RestApi.sendFaxRoute ⟨true, ["a.pdf"], some ["5551234"], some []⟩
        ⟨false, "unreachable", true, "", true,
         ⟨true, some "1", none, none, 1⟩⟩).2.deletedFiles = [] ∧
    (RestApi.sendFaxRoute ⟨true, ["a.pdf"], some ["5551234"], some []⟩
        ⟨false, "unreachable", true, "", true,
         ⟨true, some "1", none, none, 1⟩⟩).1.status = 503 := by
  refine ⟨?_, ?_, ?_⟩ <;> rfl

/-- C6 (amended): the transport adapter deletes every staged file exactly
when the Submission Protocol call was actually performed — on both
submission success and submission failure; on requests that never reach
the submission call (connect or login failure, marshalling error) the
staged files are not deleted (see the counterexample). -/
theorem C6_cleanup_when_submission_attempted (req : RestApi.RestRequest)
    (b : RestApi.RestBackend)
    (h : (RestApi.sendFaxRoute req b).2.sendCalled = true) :
    (RestApi.sendFaxRoute req b).2.deletedFiles =
      (RestApi.sendFaxRoute req b).2.stagedFiles := by
  rcases req with ⟨hf, files, dests, opts⟩
  unfold RestApi.sendFaxRoute at h ⊢
  cases hf
  · simp [RestApi.noEffects] at h
  · cases h1 : files.isEmpty || files.all (fun f => f == "")
    · cases dests with
      | none => simp [h1, RestApi.noEffects] at h
      | some ds =>
        cases h2 : ds.isEmpty
        · cases opts with
          | none => simp [h1, h2, RestApi.noEffects] at h
          | some os =>
            cases h3 :
              (files.filter (fun f => f != "" && RestApi.allowed_file f)).isEmpty
            · cases h4 : b.connectRes
              · simp [h1, h2, h3, h4, PyFax.connect, PyFax.freshSession] at h
              · cases h5 : b.loginRes
                · simp [h1, h2, h3, h4, h5, PyFax.connect, PyFax.login,
                        PyFax.freshSession] at h
                · simp [h1, h2, h3, h4, h5, PyFax.connect, PyFax.login,
                        PyFax.freshSession] at h ⊢
                  split
                  · rename_i heq
                    rw [heq] at h
                    simp at h
                  · rename_i out heq
                    rcases out with ⟨oc, bc⟩
                    cases oc
                    · rfl
                    · dsimp only
                      split <;> rfl
            · simp [h1, h2, h3, RestApi.noEffects] at h
        · simp [h1, h2, RestApi.noEffects] at h
    · simp [h1, RestApi.noEffects] at h

/-- C6 witness: on a concrete request whose connect, login and submission
all happen, the staged file list equals the deleted file list. -/
theorem C6_witness :
    (RestApi.sendFaxRoute ⟨true, ["a.pdf"], some ["5551234"], some []⟩
        ⟨true, "", true, "", true,
         ⟨true, some "7", none, none, 2⟩⟩).2.sendCalled = true ∧
    (RestApi.sendFaxRoute ⟨true, ["a.pdf"], some ["5551234"], some []⟩
        ⟨true, "", true, "", true,
         ⟨true, some "7", none, none, 2⟩⟩).2.deletedFiles =
      (RestApi.sendFaxRoute ⟨true, ["a.pdf"], some ["5551234"], some []⟩
        ⟨true, "", true, "", true,
         ⟨true, some "7", none, none, 2⟩⟩).2.stagedFiles :=
  ⟨by decide, C6_cleanup_when_submission_attempted _ _ (by decide)⟩

/-! ## Claim C7 -/

/-- C7: `get_job_status` never returns more than `maxJobs = 1000` records
for any queue type, and returns the empty list (not an error) both when
the session is not connected-and-logged-in and when the backend call
reports failure. -/
theorem C7_query_bounded_and_failsoft (s : PyFax.SessionState)
    (qt : PyFax.QueueType) (backendOk : Bool)
    (backendJobs : List PyFax.FaxJobInfo) :
    (∀ l, PyFax.get_job_status s qt backendOk backendJobs = some l →
        l.length ≤ PyFax.maxJobs) ∧
    (¬(s.connected = true ∧ s.logged_in = true) →
        PyFax.get_job_status s qt backendOk backendJobs = some []) ∧
    (backendOk = false →
        PyFax.get_job_status s qt backendOk backendJobs = some []) := by
  refine ⟨fun l hl => ?_, fun hna => ?_, fun hbf => ?_⟩
  · unfold PyFax.get_job_status at hl
    split at hl
    · cases hl
      simp
    · split at hl
      · cases hl
        simp
      · split at hl
        · cases hl
        · cases hl
          rename_i hle
          rw [List.length_map]
          omega
  · unfold PyFax.get_job_status
    rcases s with ⟨c, l⟩
    cases c <;> cases l <;> simp_all
  · unfold PyFax.get_job_status
    subst hbf
    split
    · rfl
    · simp

/-- C7 witness: a concrete not-authenticated query returns the empty list,
and a concrete authenticated query of two backend jobs returns at most
1000 records. -/
theorem C7_witness :
    PyFax.get_job_status ⟨true, false⟩ .SEND_QUEUE true [{}] = some [] ∧
    ([PyFax.toJobRecord {}, PyFax.toJobRecord {}].length ≤ PyFax.maxJobs) := by
  constructor
  · exact (C7_query_bounded_and_failsoft ⟨true, false⟩ .SEND_QUEUE true
      [{}]).2.1 (by decide)
  · exact (C7_query_bounded_and_failsoft ⟨true, true⟩ .DONE_QUEUE true
      [{}, {}]).1 _ rfl

/-! ## Claim C8 -/

/-- A key that is neither a field name nor a raising non-field attribute
leaves the structure unchanged: it either fails the `hasattr` gate and is
skipped, or is an inert attribute whose `setattr` does not touch the C
structure. -/
theorem setOption_skips_nonattr (o : PyFax.FaxSendOptions) (key : String)
    (v : PyFax.CValue) (h : PyFax.isAttrName key = false) :
    PyFax.setOption o key v = some o := by
  unfold PyFax.isAttrName at h
  have hor := Bool.or_eq_false_iff.mp h
  unfold PyFax.setOption
  split <;>
    first
      | (exfalso
         have hc := hor.1
         simp [PyFax.fieldNames] at hc
         done)
      | (intros; simp only [hor.2]; simp)

/-- Folding only non-attribute entries leaves any accumulator unchanged. -/
theorem foldOptions_nonattr (m : List (String × PyFax.CValue))
    (o : PyFax.FaxSendOptions)
    (h : ∀ kv ∈ m, PyFax.isAttrName kv.1 = false) :
    m.foldlM (fun o kv => PyFax.setOption o kv.1 kv.2) o = some o := by
  induction m generalizing o with
  | nil => rfl
  | cons kv rest ih =>
    rw [List.foldlM_cons, setOption_skips_nonattr o kv.1 kv.2
      (h kv (List.mem_cons_self kv rest))]
    exact ih o fun kv' hm => h kv' (List.mem_cons_of_mem kv hm)

/-- Dropping the non-attribute entries of the mapping does not change the
fold, from any accumulator. -/
theorem foldOptions_filter (m : List (String × PyFax.CValue))
    (o : PyFax.FaxSendOptions) :
    m.foldlM (fun o kv => PyFax.setOption o kv.1 kv.2) o =
      (m.filter (fun kv => PyFax.isAttrName kv.1)).foldlM
        (fun o kv => PyFax.setOption o kv.1 kv.2) o := by
  induction m generalizing o with
  | nil => rfl
  | cons kv rest ih =>
    cases hk : PyFax.isAttrName kv.1 with
    | true =>
      have hfil : List.filter (fun kv => PyFax.isAttrName kv.1) (kv :: rest) =
          kv :: List.filter (fun kv => PyFax.isAttrName kv.1) rest := by
        simp [List.filter_cons, hk]
      rw [hfil, List.foldlM_cons, List.foldlM_cons]
      cases hs : PyFax.setOption o kv.1 kv.2 with
      | none => rfl
      | some o' => exact ih o'
    | false =>
      have hfil : List.filter (fun kv => PyFax.isAttrName kv.1) (kv :: rest) =
          List.filter (fun kv => PyFax.isAttrName kv.1) rest := by
        simp [List.filter_cons, hk]
      rw [hfil, List.foldlM_cons, setOption_skips_nonattr o kv.1 kv.2 hk]
      exact ih o

/-- C8 counterexample: marshalling can fail, so unrecognized keys are not
always dropped without error.  The key `__class__` is not an option field,
yet `hasattr(c_options, "__class__")` is true and the `setattr` raises
`TypeError` (the encoded bytes value is not a class): the mapping
containing only this unrecognized key does not marshal to the all-defaults
record — it raises. -/
theorem C8_counterexample :
    PyFax.marshalOptions [("__class__", PyFax.CValue.vstr "x")] = none ∧
    PyFax.fieldNames.contains "__class__" = false ∧
    PyFax.hasattrOptions "__class__" = true := by decide

/-- C8 (amended): marshalling an empty mapping yields the all-defaults
record, and every entry whose key is neither a declared field name nor a
raising non-field attribute — all keys `hasattr` rejects, plus the inert
class attributes and methods — is dropped without error, so a mapping of
only such keys marshals to the all-defaults record.  Marshalling is not
total: keys naming guarded or read-only non-field attributes (such as
`__class__` or `_b_base_`) pass the `hasattr` gate and their `setattr`
raises instead of dropping the entry. -/
theorem C8_marshal_defaults_and_drops_nonattr
    (m : List (String × PyFax.CValue)) :
    PyFax.marshalOptions [] = some PyFax.defaultOptions ∧
    ((∀ kv ∈ m, PyFax.isAttrName kv.1 = false) →
      PyFax.marshalOptions m = some PyFax.defaultOptions) ∧
    PyFax.marshalOptions m =
      PyFax.marshalOptions (m.filter (fun kv => PyFax.isAttrName kv.1)) := by
  refine ⟨rfl, fun h => ?_, ?_⟩
  · exact foldOptions_nonattr m PyFax.defaultOptions h
  · exact foldOptions_filter m PyFax.defaultOptions

/-- C8 witness: a concrete mapping holding only the key `unknownKey` —
no field and no structure attribute — marshals to the all-defaults
record. -/
theorem C8_witness :
    (∀ kv ∈ [("unknownKey", PyFax.CValue.vint 5)],
        PyFax.isAttrName kv.1 = false) ∧
    PyFax.marshalOptions [("unknownKey", PyFax.CValue.vint 5)] =
      some PyFax.defaultOptions :=
  ⟨by decide,
   (C8_marshal_defaults_and_drops_nonattr
      [("unknownKey", PyFax.CValue.vint 5)]).2.1 (by decide)⟩

/-! ## Claim C9 -/

/-- C9: submitting through the spec-modelled backend binding, a
submission with exactly one destination always carries an empty
`group_id` in the result dictionary, and a submission with more than one
destination carries a non-empty `group_id` whenever the result's
`success` entry is true. -/
theorem C9_group_id_fanout (s : PyFax.SessionState)
    (files destinations : List String) (opts : List (String × PyFax.CValue))
    (o : FaxBackend.SendOracle) (out : PyFax.SendFaxOutcome)
    (hc : s.connected = true) (hl : s.logged_in = true)
    (hout : PyFax.send_fax s files destinations opts o.callOk
        (FaxBackend.sendFaxModel destinations o) = some out) :
    (destinations.length = 1 →
      PyFax.dictGet (PyFax.sendDict out.outcome) "group_id" =
        some (PyFax.PyVal.pstr "")) ∧
    (1 < destinations.length →
      PyFax.dictGet (PyFax.sendDict out.outcome) "success" =
        some (PyFax.PyVal.pbool true) →
      PyFax.dictGet (PyFax.sendDict out.outcome) "group_id" ≠
        some (PyFax.PyVal.pstr "")) := by
  unfold PyFax.send_fax at hout
  rw [hc, hl] at hout
  simp only [Bool.and_self, Bool.not_true, Bool.false_eq_true, if_false] at hout
  cases hm : PyFax.marshalOptions opts with
  | none => rw [hm] at hout; cases hout
  | some oopts =>
    rw [hm] at hout
    cases hout
    constructor
    · intro hlen
      show some (PyFax.PyVal.pstr
        ((FaxBackend.sendFaxModel destinations o).groupId.getD "")) = _
      unfold FaxBackend.sendFaxModel
      rw [hlen]
      rfl
    · intro hlen hsucc
      have hs : o.callOk && o.success = true := by
        have : some (PyFax.PyVal.pbool (o.callOk && o.success)) =
            some (PyFax.PyVal.pbool true) := hsucc
        simpa using this
      show some (PyFax.PyVal.pstr
        ((FaxBackend.sendFaxModel destinations o).groupId.getD "")) ≠ _
      unfold FaxBackend.sendFaxModel
      rw [if_neg (by omega)]
      intro he
      split at he
      · have hge : "G" ++ o.groupTag = "" := by simpa using he
        have hd : ("G" ++ o.groupTag).data = "".data :=
          congrArg String.data hge
        simp [String.data_append] at hd
      · rename_i hcond
        have hsf : o.success = false := Bool.eq_false_iff.mpr hcond
        rw [hsf] at hs
        simp at hs

/-- C9 witness: a concrete single-destination submission through the
modelled backend returns an empty `group_id`. -/
theorem C9_witness :
    PyFax.dictGet (PyFax.sendDict (PyFax.SendOutcome.completed true
        (FaxBackend.sendFaxModel ["5551234"]
          ⟨true, true, some "8", "7", 3, none⟩))) "group_id" =
      some (PyFax.PyVal.pstr "") :=
  (C9_group_id_fanout ⟨true, true⟩ ["f.pdf"] ["5551234"] []
    ⟨true, true, some "8", "7", 3, none⟩
    ⟨PyFax.SendOutcome.completed true
      (FaxBackend.sendFaxModel ["5551234"] ⟨true, true, some "8", "7", 3, none⟩),
     true⟩ rfl rfl rfl).1 rfl

/-! ## Claim C10 -/

/-- C10: when `send_fax` is called while not connected or not logged in,
the result is exactly the two-entry dictionary `success = False`,
`error = "Not connected or logged in"` and the backend is not invoked;
on every path that reaches the backend the result dictionary carries
exactly the five keys `success`, `job_id`, `group_id`, `total_pages`,
`error` (in that order); and the two shapes differ. -/
theorem C10_result_dict_shapes (s : PyFax.SessionState)
    (files destinations : List String) (opts : List (String × PyFax.CValue))
    (callOk : Bool) (r : PyFax.FaxSubmissionResult) :
    (¬(s.connected = true ∧ s.logged_in = true) →
      PyFax.send_fax s files destinations opts callOk r =
        some ⟨PyFax.SendOutcome.notLoggedIn, false⟩ ∧
      PyFax.sendDict PyFax.SendOutcome.notLoggedIn =
        [("success", PyFax.PyVal.pbool false),
         ("error", PyFax.PyVal.pstr "Not connected or logged in")]) ∧
    (∀ out, PyFax.send_fax s files destinations opts callOk r = some out →
      out.backendCalled = true →
      (PyFax.sendDict out.outcome).map Prod.fst =
        ["success", "job_id", "group_id", "total_pages", "error"]) ∧
    (PyFax.sendDict PyFax.SendOutcome.notLoggedIn).map Prod.fst ≠
      ["success", "job_id", "group_id", "total_pages", "error"] := by
  refine ⟨fun hna => ⟨?_, rfl⟩, fun out hout hbc => ?_, by decide⟩
  · unfold PyFax.send_fax
    rcases s with ⟨c, l⟩
    cases c <;> cases l <;> simp_all
  · unfold PyFax.send_fax at hout
    rcases s with ⟨c, l⟩
    cases c <;> cases l <;> simp only [Bool.and_self, Bool.and_true,
      Bool.and_false, Bool.not_true, Bool.not_false, if_true, if_false,
      ite_true, ite_false] at hout
    case mk.true.true =>
      cases hm : PyFax.marshalOptions opts with
      | none => rw [hm] at hout; cases hout
      | some oopts =>
        rw [hm] at hout
        cases hout
        rfl
    all_goals
      cases hout
      cases hbc

/-- C10 witness: a concrete call on a fresh (neither connected nor logged
in) session returns the two-entry error dictionary without a backend
call. -/
theorem C10_witness :
    PyFax.send_fax ⟨false, false⟩ ["a.pdf"] ["5551234"] [] true
        ⟨true, some "1", none, none, 1⟩ =
      some ⟨PyFax.SendOutcome.notLoggedIn, false⟩ :=
  ((C10_result_dict_shapes ⟨false, false⟩ ["a.pdf"] ["5551234"] [] true
      ⟨true, some "1", none, none, 1⟩).1 (by decide)).1
